import Mathlib

/-!
Shallow embedding of the CryptoDetectAndPredict backend, covering the parts of
the code the verified claims are about:

* `JsServer` — the Express server in `src/server/index.js`: in-memory globals
  (`users`, `fileAnalyses`, `nextId`), the auth routes, the `/api/analyze`
  job pipeline with its child-process stdout/stderr callbacks, and the polling
  read `/api/analyze/:id`.  (index.js also keeps `threatDetections` and
  `mlModels` arrays sharing the same `nextId` counter; no claim settled on
  this model reads them, and the shared-counter behaviour is verified on the
  `MemStorage` model below, so they are not carried in this state record.)
* `MemStorage` — the typed storage layer in `src/server/storage.ts`, with the
  routes of the unnamed Express router file that drive it.
* `ThreatsUI` — the bulk quarantine coordinator `bulkQuarantine` in the
  unnamed frontend threats module (Promise.allSettled fan-out over the
  selected threat ids).

JavaScript values are embedded as follows: numbers that are ids, sizes or
timestamps become `Nat`; model metrics and confidences become `Rat`;
`undefined`/`null` become `Option`; a thrown exception becomes
`Except.error`; an opaque parsed-JSON object becomes the `Payload` wrapper.
`JSON.parse` of an external process's output is abstracted by its outcome,
`Option Payload` (`none` = the parse threw).
-/

namespace CryptoDetect

namespace JsServer

/-- Opaque parsed-JSON payload (the analysis result object produced by the
external Python routine; `index.js` never inspects its fields). -/
structure Payload where
  raw : String
deriving DecidableEq, Repr

/-- A user record as created by `POST /api/auth/signup` in `index.js`:
`{ id: nextId++, email, password, name, createdAt: new Date() }`. -/
structure User where
  id : Nat
  email : String
  password : String
  name : String
  createdAt : Nat
deriving DecidableEq, Repr

/-- The shape of `userWithoutPassword`, i.e. the rest pattern in
`const { password: _, ...userWithoutPassword } = user` — every field of
`User` except `password`. -/
structure PublicUser where
  id : Nat
  email : String
  name : String
  createdAt : Nat
deriving DecidableEq, Repr

/-- The destructuring `const { password: _, ...userWithoutPassword } = user`. -/
def stripPassword (u : User) : PublicUser :=
  { id := u.id, email := u.email, name := u.name, createdAt := u.createdAt }

/-- A file-analysis job record as created by `POST /api/analyze`.  The JS
object initially lacks the `error` and `completedAt` keys; absence is
embedded as `none`. -/
structure Analysis where
  id : Nat
  fileName : String
  userId : Option Nat
  status : String
  uploadedAt : Nat
  result : Option Payload
  error : Option String
  completedAt : Option Nat
deriving DecidableEq, Repr

/-- The module-level mutable globals of `index.js` that the settled claims
read: `let users = []`, `let fileAnalyses = []`, `let nextId = 1`. -/
structure State where
  users : List User
  fileAnalyses : List Analysis
  nextId : Nat
deriving DecidableEq, Repr

def initState : State := { users := [], fileAnalyses := [], nextId := 1 }

/-- `POST /api/auth/signup`: reject when a user with the email exists,
otherwise push `{ id: nextId++, email, password, name, createdAt }` and
respond with `userWithoutPassword`. -/
def signup (s : State) (email password name : String) (now : Nat) :
    Except String (PublicUser × State) :=
  match s.users.find? (fun u => u.email == email) with
  | some _ => .error "User already exists"
  | none =>
      let newUser : User :=
        { id := s.nextId, email := email, password := password, name := name,
          createdAt := now }
      .ok (stripPassword newUser,
           { s with users := s.users ++ [newUser], nextId := s.nextId + 1 })

/-- `POST /api/auth/login`: find a user matching email and password, answer
401 ("Invalid credentials") or `userWithoutPassword`.  The read does not
change the state. -/
def login (s : State) (email password : String) : Except String PublicUser :=
  match s.users.find? (fun u => u.email == email && u.password == password) with
  | none => .error "Invalid credentials"
  | some u => .ok (stripPassword u)

/-- `POST /api/analyze`: create the record
`{ id: nextId++, fileName, userId, status: 'ANALYZING', uploadedAt, result: null }`,
push it, spawn the Python process, and respond with the record at once.  The
process's output arrives later as `Signal`s (below). -/
def postAnalyze (s : State) (fileName : String) (userId : Option Nat) (now : Nat) :
    Analysis × State :=
  let analysis : Analysis :=
    { id := s.nextId, fileName := fileName, userId := userId,
      status := "ANALYZING", uploadedAt := now, result := none, error := none,
      completedAt := none }
  (analysis,
   { s with fileAnalyses := s.fileAnalyses ++ [analysis], nextId := s.nextId + 1 })

/-- One emission of the spawned process: a stdout `data` chunk (carried as the
outcome of `JSON.parse` on it, with the wall clock for `new Date()`), or a
stderr `data` chunk. -/
inductive Signal where
  | stdout (parsed : Option Payload) (now : Nat)
  | stderr (data : String)
deriving DecidableEq, Repr

/-- The `pythonProcess.stdout.on('data', ...)` callback: on a parseable chunk
set status COMPLETED, store the result and `completedAt`; on a parse failure
set status FAILED with error `'Analysis failed'`. -/
def onStdoutData (a : Analysis) (parsed : Option Payload) (now : Nat) : Analysis :=
  match parsed with
  | some r => { a with status := "COMPLETED", result := some r, completedAt := some now }
  | none => { a with status := "FAILED", error := some "Analysis failed" }

/-- The `pythonProcess.stderr.on('data', ...)` callback: set status FAILED
with the chunk text as the error. -/
def onStderrData (a : Analysis) (data : String) : Analysis :=
  { a with status := "FAILED", error := some data }

def applySignal (a : Analysis) (sig : Signal) : Analysis :=
  match sig with
  | .stdout parsed now => onStdoutData a parsed now
  | .stderr data => onStderrData a data

/-- The callbacks fire once per emitted chunk, in arrival order, each mutating
the same closed-over record. -/
def runSignals (a : Analysis) (sigs : List Signal) : Analysis :=
  sigs.foldl applySignal a

/-- The status each callback writes, a function of the signal alone. -/
def signalStatus : Signal → String
  | .stdout (some _) _ => "COMPLETED"
  | .stdout none _ => "FAILED"
  | .stderr _ => "FAILED"

/-- `GET /api/analyze/:id`: `fileAnalyses.find(a => a.id === id)`, a pure read
returning the record (or a 404) and leaving the globals untouched. -/
def getAnalyzeEndpoint (s : State) (id : Nat) : Option Analysis × State :=
  (s.fileAnalyses.find? (fun a => a.id == id), s)

/-- `n` successive polling reads of the same job id, threading the server
state from each read to the next. -/
def pollN (s : State) (id : Nat) : Nat → List (Option Analysis) × State
  | 0 => ([], s)
  | n + 1 =>
      let r := getAnalyzeEndpoint s id
      let rest := pollN r.2 id n
      (r.1 :: rest.1, rest.2)

def isTerminalStatus (st : String) : Bool :=
  st == "COMPLETED" || st == "FAILED"

end JsServer

namespace MemStorage

/-- JS `x || null` on an optional number: `0` is falsy in JS, so a present
`0` collapses to `null`. -/
def orNullNat (v : Option Nat) : Option Nat :=
  match v with
  | some 0 => none
  | v => v

/-- JS `x || null` on an optional rational (`0` is falsy). -/
def orNullRat (v : Option Rat) : Option Rat :=
  match v with
  | some q => if q = 0 then none else some q
  | none => none

/-- JS `x || null` on an optional string (the empty string is falsy). -/
def orNullStr (v : Option String) : Option String :=
  match v with
  | some str => if str = "" then none else some str
  | none => none

/-- A stored user of `MemStorage.createUser`:
`{ id: this.nextId++, ...user, createdAt: new Date() }`. -/
structure User where
  id : Nat
  email : String
  password : String
  name : String
  createdAt : Nat
deriving DecidableEq, Repr

/-- Modelled from the spec: `shared/schema` is not in the source tree, so the
field set of `InsertUser` follows the spec's signup input and the router's
usage (`email`, `password`, `name`; the login route reads `user.email` and
`user.password`). -/
structure InsertUser where
  email : String
  password : String
  name : String
deriving DecidableEq, Repr

/-- A stored threat detection, fields as copied by
`MemStorage.createThreatDetection` (storage.ts lines 53-71).  Numeric metric
fields (`confidence`, `entropy`) are embedded as `Rat`; `features` is an
opaque list of feature names as in the router's mock results. -/
structure ThreatDetection where
  id : Nat
  userId : Option Nat
  fileName : String
  filePath : String
  threatLevel : String
  threatType : String
  confidence : Rat
  mlPrediction : String
  fileSize : Option Nat
  entropy : Option Rat
  features : Option (List String)
  isQuarantined : Bool
  detectedAt : Nat
deriving DecidableEq, Repr

/-- The insert payload of `createThreatDetection`; optional fields are the
ones the create guards with `|| null` / `|| false`. -/
structure InsertThreatDetection where
  userId : Option Nat := none
  fileName : String
  filePath : String
  threatLevel : String
  threatType : String
  confidence : Rat
  mlPrediction : String
  fileSize : Option Nat := none
  entropy : Option Rat := none
  features : Option (List String) := none
  isQuarantined : Option Bool := none
deriving DecidableEq, Repr

/-- A stored ML model, fields as copied by `MemStorage.createMlModel`. -/
structure MlModel where
  id : Nat
  modelName : String
  algorithm : String
  accuracy : Rat
  precision : Rat
  «recall» : Rat
  f1Score : Rat
  trainingDataSize : Option Nat
  features : Option (List String)
  modelPath : Option String
  isActive : Bool
  trainedAt : Nat
deriving DecidableEq, Repr

/-- The insert payload of `createMlModel`. -/
structure InsertMlModel where
  modelName : String
  algorithm : String
  accuracy : Rat
  precision : Rat
  «recall» : Rat
  f1Score : Rat
  trainingDataSize : Option Nat := none
  features : Option (List String) := none
  modelPath : Option String := none
  isActive : Option Bool := none
deriving DecidableEq, Repr

/-- A stored file analysis, fields as copied by
`MemStorage.createFileAnalysis`; the opaque `analysisResult` payload reuses
the `Payload` wrapper. -/
structure FileAnalysis where
  id : Nat
  userId : Option Nat
  fileName : String
  filePath : String
  status : String
  analysisResult : Option JsServer.Payload
  uploadedAt : Nat
  completedAt : Option Nat
deriving DecidableEq, Repr

/-- The insert payload of `createFileAnalysis` (`status` is taken from the
insert, not fixed by the storage layer). -/
structure InsertFileAnalysis where
  userId : Option Nat := none
  fileName : String
  filePath : String
  status : String
  analysisResult : Option JsServer.Payload := none
deriving DecidableEq, Repr

/-- The private fields of `class MemStorage`: four entity arrays and the
single shared `private nextId = 1` counter. -/
structure MemState where
  users : List User
  threatDetections : List ThreatDetection
  mlModels : List MlModel
  fileAnalyses : List FileAnalysis
  nextId : Nat
deriving DecidableEq, Repr

def initMemState : MemState :=
  { users := [], threatDetections := [], mlModels := [], fileAnalyses := [],
    nextId := 1 }

/-- `createUser`: `{ id: this.nextId++, ...user, createdAt }`, pushed. -/
def createUser (s : MemState) (u : InsertUser) (now : Nat) : User × MemState :=
  let newUser : User :=
    { id := s.nextId, email := u.email, password := u.password, name := u.name,
      createdAt := now }
  (newUser, { s with users := s.users ++ [newUser], nextId := s.nextId + 1 })

/-- `createThreatDetection`, field for field (storage.ts lines 53-71). -/
def createThreatDetection (s : MemState) (d : InsertThreatDetection) (now : Nat) :
    ThreatDetection × MemState :=
  let newDetection : ThreatDetection :=
    { id := s.nextId
      userId := orNullNat d.userId
      fileName := d.fileName
      filePath := d.filePath
      threatLevel := d.threatLevel
      threatType := d.threatType
      confidence := d.confidence
      mlPrediction := d.mlPrediction
      fileSize := orNullNat d.fileSize
      entropy := orNullRat d.entropy
      features := d.features
      isQuarantined := d.isQuarantined.getD false
      detectedAt := now }
  (newDetection,
   { s with threatDetections := s.threatDetections ++ [newDetection],
            nextId := s.nextId + 1 })

/-- `createMlModel`, field for field (storage.ts lines 89-106). -/
def createMlModel (s : MemState) (m : InsertMlModel) (now : Nat) :
    MlModel × MemState :=
  let newModel : MlModel :=
    { id := s.nextId
      modelName := m.modelName
      algorithm := m.algorithm
      accuracy := m.accuracy
      precision := m.precision
      «recall» := m.«recall»
      f1Score := m.f1Score
      trainingDataSize := orNullNat m.trainingDataSize
      features := m.features
      modelPath := orNullStr m.modelPath
      isActive := m.isActive.getD false
      trainedAt := now }
  (newModel,
   { s with mlModels := s.mlModels ++ [newModel], nextId := s.nextId + 1 })

/-- `createFileAnalysis`, field for field (storage.ts lines 124-137);
`completedAt` starts `null`. -/
def createFileAnalysis (s : MemState) (a : InsertFileAnalysis) (now : Nat) :
    FileAnalysis × MemState :=
  let newAnalysis : FileAnalysis :=
    { id := s.nextId
      userId := orNullNat a.userId
      fileName := a.fileName
      filePath := a.filePath
      status := a.status
      analysisResult := a.analysisResult
      uploadedAt := now
      completedAt := none }
  (newAnalysis,
   { s with fileAnalyses := s.fileAnalyses ++ [newAnalysis],
            nextId := s.nextId + 1 })

/-- `getFileAnalysisById`: `this.fileAnalyses.find(f => f.id === id) || null`,
a pure read. -/
def getFileAnalysisById (s : MemState) (id : Nat) : Option FileAnalysis :=
  s.fileAnalyses.find? (fun f => f.id == id)

/-- `Partial<ThreatDetection>` — the `updates` argument of
`updateThreatDetection`: every field of `ThreatDetection` optionally present
(a present field overwrites in the spread merge, an absent one is kept). -/
structure ThreatUpdate where
  id : Option Nat := none
  userId : Option (Option Nat) := none
  fileName : Option String := none
  filePath : Option String := none
  threatLevel : Option String := none
  threatType : Option String := none
  confidence : Option Rat := none
  mlPrediction : Option String := none
  fileSize : Option (Option Nat) := none
  entropy : Option (Option Rat) := none
  features : Option (Option (List String)) := none
  isQuarantined : Option Bool := none
  detectedAt : Option Nat := none
deriving DecidableEq, Repr

/-- The spread merge `{ ...t, ...updates }`. -/
def applyThreatUpdate (t : ThreatDetection) (u : ThreatUpdate) : ThreatDetection :=
  { id := u.id.getD t.id
    userId := u.userId.getD t.userId
    fileName := u.fileName.getD t.fileName
    filePath := u.filePath.getD t.filePath
    threatLevel := u.threatLevel.getD t.threatLevel
    threatType := u.threatType.getD t.threatType
    confidence := u.confidence.getD t.confidence
    mlPrediction := u.mlPrediction.getD t.mlPrediction
    fileSize := u.fileSize.getD t.fileSize
    entropy := u.entropy.getD t.entropy
    features := u.features.getD t.features
    isQuarantined := u.isQuarantined.getD t.isQuarantined
    detectedAt := u.detectedAt.getD t.detectedAt }

/-- The `findIndex` / `this.threatDetections[index] = merged` / return-merged
pattern of `updateThreatDetection`, expressed structurally on the list:
replace the first element satisfying `p` by its image under `f` and return
the new element together with the updated list; `none` when no element
matches (`findIndex` returned `-1`). -/
def updateFirst (p : α → Bool) (f : α → α) : List α → Option (α × List α)
  | [] => none
  | x :: xs =>
      if p x then
        let x1 := f x
        some (x1, x1 :: xs)
      else
        match updateFirst p f xs with
        | none => none
        | some (r, ys) => some (r, x :: ys)

/-- `updateThreatDetection` (storage.ts lines 81-87): find the threat by id,
throw `'Threat detection not found'` when absent, otherwise overwrite it with
the spread merge and return it.  No state check precedes the merge. -/
def updateThreatDetection (s : MemState) (id : Nat) (updates : ThreatUpdate) :
    Except String (ThreatDetection × MemState) :=
  match updateFirst (fun t => t.id == id) (fun t => applyThreatUpdate t updates)
        s.threatDetections with
  | none => .error "Threat detection not found"
  | some (t, l) => .ok (t, { s with threatDetections := l })

/-- The update body a client sends to quarantine a threat over
`PATCH /api/threats/:id` (the router passes `req.body` straight through to
`updateThreatDetection`): `{ isQuarantined: true }`. -/
def quarantineUpdate : ThreatUpdate := { isQuarantined := some true }

/-- The quarantine operation as it reaches the storage layer. -/
def quarantineThreat (s : MemState) (id : Nat) :
    Except String (ThreatDetection × MemState) :=
  updateThreatDetection s id quarantineUpdate

/-- One creation call on the storage layer, with the wall clock for
`new Date()`. -/
inductive CreateOp where
  | user (u : InsertUser) (now : Nat)
  | threat (d : InsertThreatDetection) (now : Nat)
  | model (m : InsertMlModel) (now : Nat)
  | analysis (a : InsertFileAnalysis) (now : Nat)

/-- Dispatch a creation call, returning the id the storage layer assigned. -/
def applyCreate (s : MemState) : CreateOp → Nat × MemState
  | .user u now => let r := createUser s u now; (r.1.id, r.2)
  | .threat d now => let r := createThreatDetection s d now; (r.1.id, r.2)
  | .model m now => let r := createMlModel s m now; (r.1.id, r.2)
  | .analysis a now => let r := createFileAnalysis s a now; (r.1.id, r.2)

/-- Run a sequence of creation calls, collecting the assigned ids in
creation order. -/
def runCreates (s : MemState) : List CreateOp → List Nat × MemState
  | [] => ([], s)
  | op :: ops =>
      let r := applyCreate s op
      let rest := runCreates r.2 ops
      (r.1 :: rest.1, rest.2)

/-- All ids stored across the four entity collections. -/
def allIds (s : MemState) : List Nat :=
  s.users.map User.id ++ s.threatDetections.map ThreatDetection.id ++
  s.mlModels.map MlModel.id ++ s.fileAnalyses.map FileAnalysis.id

end MemStorage

namespace ThreatsUI

/-- The settled outcome of one `fetch('/quarantine_threat/' + threatId, ...)`
promise, as `Promise.allSettled` reports it: fulfilled with an HTTP response
(`ok` is `response.ok`), or rejected (network failure). -/
inductive FetchOutcome where
  | fulfilled (ok : Bool)
  | rejected
deriving DecidableEq, Repr

/-- The success test of the tally loop:
`result.status === 'fulfilled' && result.value.ok`. -/
def isSuccess : FetchOutcome → Bool
  | .fulfilled ok => ok
  | .rejected => false

/-- What one `bulkQuarantine` run produces: the `successCount` / `failCount`
tallies shown in the toasts, and the threat ids whose row was marked
quarantined (`updateThreatRowStatus(threatId, 'quarantined')`), in loop
order. -/
structure BulkOutcome where
  successCount : Nat
  failCount : Nat
  quarantinedRows : List Nat
deriving DecidableEq, Repr

/-- The two early returns before any request is issued: the empty-selection
warning toast (`'No threats selected for quarantine.'`) and a dismissed
`confirm()` dialog. -/
inductive BulkAbort where
  | emptySelection
  | notConfirmed
deriving DecidableEq, Repr

/-- One step of the `results.forEach` tally: a success bumps `successCount`
and marks the row quarantined; anything else bumps `failCount`. -/
def tallyStep (acc : Nat × Nat × List Nat) (entry : Nat × FetchOutcome) :
    Nat × Nat × List Nat :=
  if isSuccess entry.2 then (acc.1 + 1, acc.2.1, acc.2.2 ++ [entry.1])
  else (acc.1, acc.2.1 + 1, acc.2.2)

/-- `bulkQuarantine` from the threats frontend module: `selected` is
`Array.from(selectedThreats)` (a JS `Set`, so duplicate-free), `confirmed` is
the `confirm()` answer, and `fetch` gives each threat id's settled request
outcome.  Empty selection returns before any request; otherwise every id's
request is issued and awaited (`Promise.allSettled`), then tallied. -/
def bulkQuarantine (selected : List Nat) (confirmed : Bool)
    (fetch : Nat → FetchOutcome) : Except BulkAbort BulkOutcome :=
  if selected.length = 0 then .error .emptySelection
  else if confirmed = false then .error .notConfirmed
  else
    let results := selected.map (fun threatId => (threatId, fetch threatId))
    let tally := results.foldl tallyStep (0, 0, [])
    .ok { successCount := tally.1, failCount := tally.2.1,
          quarantinedRows := tally.2.2 }

end ThreatsUI

/-! ## Helper lemmas about the job pipeline (`JsServer`) -/

theorem applySignal_status (a : JsServer.Analysis) (sig : JsServer.Signal) :
    (JsServer.applySignal a sig).status = JsServer.signalStatus sig := by
  cases sig with
  | stdout parsed now => cases parsed <;> rfl
  | stderr data => rfl

theorem signalStatus_cases (sig : JsServer.Signal) :
    JsServer.signalStatus sig = "COMPLETED" ∨ JsServer.signalStatus sig = "FAILED" := by
  cases sig with
  | stdout parsed now =>
      cases parsed with
      | none => exact Or.inr rfl
      | some p => exact Or.inl rfl
  | stderr data => exact Or.inr rfl

theorem runSignals_append (a : JsServer.Analysis) (sigs : List JsServer.Signal)
    (sig : JsServer.Signal) :
    JsServer.runSignals a (sigs ++ [sig])
      = JsServer.applySignal (JsServer.runSignals a sigs) sig := by
  simp [JsServer.runSignals, List.foldl_append]

theorem runSignals_status_cases (a : JsServer.Analysis) (sigs : List JsServer.Signal) :
    (JsServer.runSignals a sigs).status = a.status ∨
    (JsServer.runSignals a sigs).status = "COMPLETED" ∨
    (JsServer.runSignals a sigs).status = "FAILED" := by
  induction sigs generalizing a with
  | nil => exact Or.inl rfl
  | cons sig sigs ih =>
      have hstep : JsServer.runSignals a (sig :: sigs)
          = JsServer.runSignals (JsServer.applySignal a sig) sigs := rfl
      rw [hstep]
      rcases ih (JsServer.applySignal a sig) with h | h | h
      · rw [h, applySignal_status]
        exact Or.inr (signalStatus_cases sig)
      · exact Or.inr (Or.inl h)
      · exact Or.inr (Or.inr h)

/-! ## C1 — job status path -/

/-- C1 counterexample: the record returned by `POST /api/analyze` is created
with status `"ANALYZING"`, not `"PENDING"`, and the very first successful
stdout chunk moves it straight to `"COMPLETED"` — the job is never observed
as `"RUNNING"` before its terminal state.  This refutes the claimed path
PENDING → RUNNING → {COMPLETED, FAILED} at a concrete input. -/
theorem analyze_created_not_pending :
    (JsServer.postAnalyze JsServer.initState "invoice.exe" none 0).1.status = "ANALYZING" ∧
    (JsServer.postAnalyze JsServer.initState "invoice.exe" none 0).1.status ≠ "PENDING" ∧
    (JsServer.applySignal (JsServer.postAnalyze JsServer.initState "invoice.exe" none 0).1
        (JsServer.Signal.stdout (some ⟨"verdict"⟩) 2)).status = "COMPLETED" := by
  decide

/-- C1 (amended): a submitted analysis job is created with status
`"ANALYZING"`, and every process signal writes a terminal status directly, so
over any signal sequence the job's status is always one of `"ANALYZING"`,
`"COMPLETED"`, `"FAILED"` — `"PENDING"` and `"RUNNING"` never occur, and the
first transition out of `"ANALYZING"` goes straight to a terminal status. -/
theorem analyze_job_statuses_amended (s : JsServer.State) (fileName : String)
    (userId : Option Nat) (now : Nat) (sigs : List JsServer.Signal) :
    (JsServer.postAnalyze s fileName userId now).1.status = "ANALYZING" ∧
    ((JsServer.runSignals (JsServer.postAnalyze s fileName userId now).1 sigs).status = "ANALYZING" ∨
     (JsServer.runSignals (JsServer.postAnalyze s fileName userId now).1 sigs).status = "COMPLETED" ∨
     (JsServer.runSignals (JsServer.postAnalyze s fileName userId now).1 sigs).status = "FAILED") := by
  refine ⟨rfl, ?_⟩
  rcases runSignals_status_cases (JsServer.postAnalyze s fileName userId now).1 sigs
    with h | h | h
  · exact Or.inl h
  · exact Or.inr (Or.inl h)
  · exact Or.inr (Or.inr h)

/-! ## C2 — at-most-one terminal transition -/

/-- C2 counterexample: after the stderr chunk `"boom"` the job has reached
the terminal status `"FAILED"`, yet a later stdout completion signal still
changes the record (it is reapplied, not discarded) — refuting that every
signal after the first terminal write is discarded. -/
theorem signal_after_terminal_reapplied :
    (JsServer.runSignals (JsServer.postAnalyze JsServer.initState "invoice.exe" none 0).1
        [JsServer.Signal.stderr "boom"]).status = "FAILED" ∧
    JsServer.runSignals (JsServer.postAnalyze JsServer.initState "invoice.exe" none 0).1
        [JsServer.Signal.stderr "boom", JsServer.Signal.stdout (some ⟨"ok"⟩) 3]
      ≠ JsServer.runSignals (JsServer.postAnalyze JsServer.initState "invoice.exe" none 0).1
        [JsServer.Signal.stderr "boom"] := by
  decide

/-- C2 (amended): the stdout/stderr callbacks guard nothing — every signal is
applied unconditionally, also after a terminal write, and the status after a
signal is the one determined by that signal alone (last-writer-wins instead
of first-writer-wins). -/
theorem signals_last_writer_wins (a : JsServer.Analysis) (sigs : List JsServer.Signal)
    (sig : JsServer.Signal) :
    JsServer.runSignals a (sigs ++ [sig])
      = JsServer.applySignal (JsServer.runSignals a sigs) sig ∧
    (JsServer.runSignals a (sigs ++ [sig])).status = JsServer.signalStatus sig := by
  have h := runSignals_append a sigs sig
  exact ⟨h, by rw [h, applySignal_status]⟩

/-! ## C5 — result iff COMPLETED, error iff FAILED -/

/-- C5 counterexample: a successful stdout chunk followed by a stderr chunk
leaves the job FAILED with a non-null `result` (and a populated `error`)
— refuting "result is non-null iff status = COMPLETED". -/
theorem stale_result_after_failed_overwrite :
    (JsServer.runSignals (JsServer.postAnalyze JsServer.initState "a.exe" none 0).1
        [JsServer.Signal.stdout (some ⟨"verdict"⟩) 1, JsServer.Signal.stderr "crash"]).status
      = "FAILED" ∧
    (JsServer.runSignals (JsServer.postAnalyze JsServer.initState "a.exe" none 0).1
        [JsServer.Signal.stdout (some ⟨"verdict"⟩) 1, JsServer.Signal.stderr "crash"]).result
      ≠ none := by
  decide

/-- C5 (amended): when the external routine emits at most one signal, the
claimed shape invariant holds — `result` is non-null iff the status is
`"COMPLETED"`, and `error` is present iff the status is `"FAILED"`.  With
more than one signal a stale `result` or `error` can survive a later
overwrite (see the counterexample). -/
theorem result_error_iff_single_signal (s : JsServer.State) (fileName : String)
    (userId : Option Nat) (now : Nat) (sigs : List JsServer.Signal)
    (h : sigs.length ≤ 1) :
    ((JsServer.runSignals (JsServer.postAnalyze s fileName userId now).1 sigs).result ≠ none ↔
      (JsServer.runSignals (JsServer.postAnalyze s fileName userId now).1 sigs).status
        = "COMPLETED") ∧
    ((JsServer.runSignals (JsServer.postAnalyze s fileName userId now).1 sigs).error ≠ none ↔
      (JsServer.runSignals (JsServer.postAnalyze s fileName userId now).1 sigs).status
        = "FAILED") := by
  rcases sigs with _ | ⟨sig, rest⟩
  · constructor <;>
      simp [JsServer.runSignals, JsServer.postAnalyze]
  · rcases rest with _ | ⟨sig2, rest2⟩
    · cases sig with
      | stdout parsed t =>
          cases parsed with
          | some p =>
              constructor <;>
                simp [JsServer.runSignals, JsServer.postAnalyze, JsServer.applySignal,
                  JsServer.onStdoutData]
          | none =>
              constructor <;>
                simp [JsServer.runSignals, JsServer.postAnalyze, JsServer.applySignal,
                  JsServer.onStdoutData]
      | stderr d =>
          constructor <;>
            simp [JsServer.runSignals, JsServer.postAnalyze, JsServer.applySignal,
              JsServer.onStderrData]
    · exfalso
      simp [List.length] at h

/-- C5 witness: the single-signal invariant evaluated at a concrete run — one
stderr chunk on a fresh job. -/
theorem result_error_iff_single_signal_witness :
    ((JsServer.runSignals (JsServer.postAnalyze JsServer.initState "a.exe" none 0).1
        [JsServer.Signal.stderr "crash"]).result ≠ none ↔
      (JsServer.runSignals (JsServer.postAnalyze JsServer.initState "a.exe" none 0).1
        [JsServer.Signal.stderr "crash"]).status = "COMPLETED") ∧
    ((JsServer.runSignals (JsServer.postAnalyze JsServer.initState "a.exe" none 0).1
        [JsServer.Signal.stderr "crash"]).error ≠ none ↔
      (JsServer.runSignals (JsServer.postAnalyze JsServer.initState "a.exe" none 0).1
        [JsServer.Signal.stderr "crash"]).status = "FAILED") :=
  result_error_iff_single_signal JsServer.initState "a.exe" none 0
    [JsServer.Signal.stderr "crash"] (by decide)

/-! ## C7 — polling a terminal job is idempotent and read-only -/

/-- C7: once a job is terminal, any number of `GET /api/analyze/:id` reads
leaves the server state exactly as it was and every read returns the same
record (the first read's answer).  The read is a pure `find`, so this in fact
holds for every job; the terminal hypothesis mirrors the claim's scope. -/
theorem poll_terminal_idempotent (s : JsServer.State) (id n : Nat)
    (_h : ∃ a, (JsServer.getAnalyzeEndpoint s id).1 = some a ∧
      JsServer.isTerminalStatus a.status = true) :
    (JsServer.pollN s id n).2 = s ∧
    ∀ r ∈ (JsServer.pollN s id n).1, r = (JsServer.getAnalyzeEndpoint s id).1 := by
  induction n with
  | zero =>
      refine ⟨rfl, ?_⟩
      intro r hr
      cases hr
  | succ n ih =>
      refine ⟨ih.1, ?_⟩
      intro r hr
      rcases List.mem_cons.mp hr with hr | hr
      · exact hr
      · exact ih.2 r hr

/-- A server state holding one completed analysis, for the C7 witness. -/
def c7Record : JsServer.Analysis :=
  { id := 1, fileName := "invoice.exe", userId := none, status := "COMPLETED",
    uploadedAt := 0, result := some ⟨"verdict"⟩, error := none,
    completedAt := some 2 }

def c7State : JsServer.State :=
  { users := [], fileAnalyses := [c7Record], nextId := 2 }

/-- C7 witness: three polls of the completed job 1 leave the state unchanged
and all return the stored record. -/
theorem poll_terminal_idempotent_witness :
    (JsServer.pollN c7State 1 3).2 = c7State ∧
    ∀ r ∈ (JsServer.pollN c7State 1 3).1,
      r = (JsServer.getAnalyzeEndpoint c7State 1).1 :=
  poll_terminal_idempotent c7State 1 3 ⟨c7Record, rfl, rfl⟩

/-! ## C10 — auth responses carry no password -/

/-- C10: a successful signup stores the user with the submitted password but
answers with `userWithoutPassword`; the stripped response is unchanged under
any change of the stored password (it carries no password information); and
every successful login likewise answers with the stripped image of a stored
user whose password field is retained in the store. -/
theorem auth_responses_strip_password (s : JsServer.State)
    (email pw name : String) (now : Nat)
    (h : s.users.find? (fun u => u.email == email) = none) :
    ∃ u s1, JsServer.signup s email pw name now = .ok (JsServer.stripPassword u, s1) ∧
      u.password = pw ∧ s1.users = s.users ++ [u] ∧
      (∀ pw2, JsServer.stripPassword { u with password := pw2 }
        = JsServer.stripPassword u) ∧
      (∀ (s2 : JsServer.State) (e p : String) (r : JsServer.PublicUser),
        JsServer.login s2 e p = .ok r →
        ∃ v, v ∈ s2.users ∧ r = JsServer.stripPassword v ∧ v.password = p) := by
  refine ⟨⟨s.nextId, email, pw, name, now⟩,
    { s with users := s.users ++ [⟨s.nextId, email, pw, name, now⟩],
             nextId := s.nextId + 1 }, ?_, rfl, rfl, fun pw2 => rfl, ?_⟩
  · unfold JsServer.signup
    rw [h]
  · intro s2 e p r hr
    unfold JsServer.login at hr
    cases hfind : s2.users.find? (fun u => u.email == e && u.password == p) with
    | none =>
        rw [hfind] at hr
        cases hr
    | some v =>
        rw [hfind] at hr
        injection hr with hr1
        have hp := List.find?_some hfind
        have hband := Bool.and_eq_true_iff.mp hp
        exact ⟨v, List.mem_of_find?_eq_some hfind, hr1.symm, eq_of_beq hband.2⟩

/-- C10 witness: concrete signup on the empty store. -/
theorem auth_responses_strip_password_witness :
    ∃ u s1, JsServer.signup JsServer.initState "ada@example.com" "hunter2" "Ada" 0
        = .ok (JsServer.stripPassword u, s1) ∧
      u.password = "hunter2" ∧ s1.users = JsServer.initState.users ++ [u] ∧
      (∀ pw2, JsServer.stripPassword { u with password := pw2 }
        = JsServer.stripPassword u) ∧
      (∀ (s2 : JsServer.State) (e p : String) (r : JsServer.PublicUser),
        JsServer.login s2 e p = .ok r →
        ∃ v, v ∈ s2.users ∧ r = JsServer.stripPassword v ∧ v.password = p) :=
  auth_responses_strip_password JsServer.initState "ada@example.com" "hunter2" "Ada" 0 rfl

/-! ## Helper lemmas about the storage layer (`MemStorage`) -/

theorem updateFirst_of_any {α : Type} (p : α → Bool) (f : α → α) (l : List α)
    (h : l.any p = true) :
    ∃ x ys, MemStorage.updateFirst p f l = some (f x, ys) ∧ p x = true ∧ f x ∈ ys := by
  induction l with
  | nil => simp at h
  | cons a l ih =>
      by_cases hp : p a = true
      · exact ⟨a, f a :: l, by simp [MemStorage.updateFirst, hp], hp, by simp⟩
      · have hpa : p a = false := by simpa using hp
        have h2 : l.any p = true := by simpa [List.any_cons, hpa] using h
        obtain ⟨x, ys, heq, hx, hmem⟩ := ih h2
        exact ⟨x, a :: ys, by simp [MemStorage.updateFirst, hpa, heq], hx,
          by simp [hmem]⟩

theorem applyThreatUpdate_quarantine_id (t : MemStorage.ThreatDetection) :
    (MemStorage.applyThreatUpdate t MemStorage.quarantineUpdate).id = t.id := rfl

theorem applyThreatUpdate_quarantine_flag (t : MemStorage.ThreatDetection) :
    (MemStorage.applyThreatUpdate t MemStorage.quarantineUpdate).isQuarantined
      = true := rfl

/-! ## C3 — quarantine performs no transition check -/

/-- A threat that is already quarantined, and a store holding it, for C3. -/
def sampleThreat : MemStorage.ThreatDetection :=
  { id := 1, userId := none, fileName := "virus.exe", filePath := "/tmp/virus.exe",
    threatLevel := "HIGH", threatType := "TROJAN", confidence := 9 / 10,
    mlPrediction := "MALICIOUS", fileSize := some 1024, entropy := none,
    features := none, isQuarantined := true, detectedAt := 0 }

def quarantinedState : MemStorage.MemState :=
  { users := [], threatDetections := [sampleThreat], mlModels := [],
    fileAnalyses := [], nextId := 2 }

/-- C3 counterexample: threat 1 is already quarantined, yet the quarantine
update succeeds (and leaves it quarantined) instead of failing with
`InvalidTransitionError` — the claimed failing case does not exist in the
code. -/
theorem quarantine_already_quarantined_succeeds :
    sampleThreat.isQuarantined = true ∧
    (match MemStorage.quarantineThreat quarantinedState 1 with
     | .ok (t, _) => t.isQuarantined
     | .error _ => false) = true := by
  exact ⟨rfl, rfl⟩

/-- C3 (amended): the quarantine update (`PATCH` with `isQuarantined: true`)
applies unconditionally to any existing threat — also to one already
quarantined — and always yields a record with `isQuarantined = true`; the
only error `updateThreatDetection` ever throws is
`"Threat detection not found"` for an unknown id (there is no
`InvalidTransitionError` and no false-positive state in the code). -/
theorem quarantine_applies_unconditionally (s : MemStorage.MemState) (id : Nat)
    (h : s.threatDetections.any (fun t => t.id == id) = true) :
    (∃ t s1, MemStorage.quarantineThreat s id = .ok (t, s1) ∧
      t.isQuarantined = true) ∧
    (∀ (s2 : MemStorage.MemState) (id2 : Nat) (u : MemStorage.ThreatUpdate)
      (e : String), MemStorage.updateThreatDetection s2 id2 u = .error e →
        e = "Threat detection not found") := by
  constructor
  · obtain ⟨x, ys, heq, hx, hmem⟩ := updateFirst_of_any (fun t => t.id == id)
      (fun t => MemStorage.applyThreatUpdate t MemStorage.quarantineUpdate)
      s.threatDetections h
    refine ⟨MemStorage.applyThreatUpdate x MemStorage.quarantineUpdate,
      { s with threatDetections := ys }, ?_, rfl⟩
    unfold MemStorage.quarantineThreat MemStorage.updateThreatDetection
    rw [heq]
  · intro s2 id2 u e he
    unfold MemStorage.updateThreatDetection at he
    cases hm : MemStorage.updateFirst (fun t => t.id == id2)
        (fun t => MemStorage.applyThreatUpdate t u) s2.threatDetections with
    | none =>
        rw [hm] at he
        injection he with he1
        exact he1.symm
    | some r =>
        rw [hm] at he
        cases he

/-- C3 witness: the amended statement evaluated on the already-quarantined
store. -/
theorem quarantine_applies_unconditionally_witness :
    (∃ t s1, MemStorage.quarantineThreat quarantinedState 1 = .ok (t, s1) ∧
      t.isQuarantined = true) ∧
    (∀ (s2 : MemStorage.MemState) (id2 : Nat) (u : MemStorage.ThreatUpdate)
      (e : String), MemStorage.updateThreatDetection s2 id2 u = .error e →
        e = "Threat detection not found") :=
  quarantine_applies_unconditionally quarantinedState 1 rfl

/-! ## C8 — two quarantine calls on the same ACTIVE threat -/

/-- An ACTIVE (not quarantined) threat and a store holding it, for C8. -/
def activeThreat : MemStorage.ThreatDetection :=
  { id := 7, userId := some 3, fileName := "dropper.bin", filePath := "/home/u/dropper.bin",
    threatLevel := "CRITICAL", threatType := "RANSOMWARE", confidence := 92 / 100,
    mlPrediction := "MALICIOUS", fileSize := none, entropy := some 7,
    features := none, isQuarantined := false, detectedAt := 5 }

def activeState : MemStorage.MemState :=
  { users := [], threatDetections := [activeThreat], mlModels := [],
    fileAnalyses := [], nextId := 8 }

/-- C8 counterexample: two quarantine calls on the same ACTIVE threat,
executed in sequence (the order Node's event loop serializes them in), BOTH
succeed — the second does not fail with `InvalidTransitionError`, refuting
"exactly one succeeds and the other fails". -/
theorem concurrent_quarantine_both_ok :
    activeThreat.isQuarantined = false ∧
    (match MemStorage.quarantineThreat activeState 7 with
     | .ok (_, s1) =>
        (match MemStorage.quarantineThreat s1 7 with
         | .ok (t2, _) => t2.isQuarantined
         | .error _ => false)
     | .error _ => false) = true := by
  exact ⟨rfl, rfl⟩

/-- C8 (amended): two quarantine calls on the same existing threat — Node's
single-threaded event loop serializes the two handlers, and
`updateThreatDetection` has no suspension point between its read and its
write, so the calls compose sequentially — BOTH succeed, each returning a
quarantined record; the final state is quarantined, but no call ever fails
with `InvalidTransitionError` because no transition check exists. -/
theorem double_quarantine_both_succeed (s : MemStorage.MemState) (id : Nat)
    (h : s.threatDetections.any (fun t => t.id == id) = true) :
    ∃ t1 s1 t2 s2, MemStorage.quarantineThreat s id = .ok (t1, s1) ∧
      MemStorage.quarantineThreat s1 id = .ok (t2, s2) ∧
      t1.isQuarantined = true ∧ t2.isQuarantined = true := by
  obtain ⟨x, ys, heq, hx, hmem⟩ := updateFirst_of_any (fun t => t.id == id)
    (fun t => MemStorage.applyThreatUpdate t MemStorage.quarantineUpdate)
    s.threatDetections h
  have h1 : MemStorage.quarantineThreat s id
      = .ok (MemStorage.applyThreatUpdate x MemStorage.quarantineUpdate,
             { s with threatDetections := ys }) := by
    unfold MemStorage.quarantineThreat MemStorage.updateThreatDetection
    rw [heq]
  have hany2 : ys.any (fun t => t.id == id) = true := by
    rw [List.any_eq_true]
    exact ⟨MemStorage.applyThreatUpdate x MemStorage.quarantineUpdate, hmem,
      by rw [applyThreatUpdate_quarantine_id]; exact hx⟩
  obtain ⟨x2, ys2, heq2, hx2, hmem2⟩ := updateFirst_of_any (fun t => t.id == id)
    (fun t => MemStorage.applyThreatUpdate t MemStorage.quarantineUpdate) ys hany2
  refine ⟨MemStorage.applyThreatUpdate x MemStorage.quarantineUpdate,
    { s with threatDetections := ys },
    MemStorage.applyThreatUpdate x2 MemStorage.quarantineUpdate,
    { s with threatDetections := ys2 }, h1, ?_, rfl, rfl⟩
  unfold MemStorage.quarantineThreat MemStorage.updateThreatDetection
  rw [heq2]

/-- C8 witness: the amended statement evaluated on the ACTIVE threat 7. -/
theorem double_quarantine_both_succeed_witness :
    ∃ t1 s1 t2 s2, MemStorage.quarantineThreat activeState 7 = .ok (t1, s1) ∧
      MemStorage.quarantineThreat s1 7 = .ok (t2, s2) ∧
      t1.isQuarantined = true ∧ t2.isQuarantined = true :=
  double_quarantine_both_succeed activeState 7 rfl

/-! ## C9 — one shared id counter across all four collections -/

theorem applyCreate_fst (s : MemStorage.MemState) (op : MemStorage.CreateOp) :
    (MemStorage.applyCreate s op).1 = s.nextId := by
  cases op <;> rfl

theorem applyCreate_nextId (s : MemStorage.MemState) (op : MemStorage.CreateOp) :
    (MemStorage.applyCreate s op).2.nextId = s.nextId + 1 := by
  cases op <;> rfl

theorem runCreates_ids (ops : List MemStorage.CreateOp) :
    ∀ s : MemStorage.MemState,
      (MemStorage.runCreates s ops).1 = List.range' s.nextId ops.length := by
  induction ops with
  | nil => intro s; rfl
  | cons op ops ih =>
      intro s
      have hstep : MemStorage.runCreates s (op :: ops)
          = ((MemStorage.applyCreate s op).1
              :: (MemStorage.runCreates (MemStorage.applyCreate s op).2 ops).1,
             (MemStorage.runCreates (MemStorage.applyCreate s op).2 ops).2) := rfl
      rw [hstep]
      simp only [List.length_cons, List.range'_succ]
      rw [applyCreate_fst, ih, applyCreate_nextId]

theorem perm_snoc_first {α : Type} (a : α) (u t m f : List α) :
    ((u ++ [a]) ++ t ++ m ++ f).Perm (a :: (u ++ t ++ m ++ f)) := by
  have h : (u ++ [a]) ++ t ++ m ++ f = u ++ a :: (t ++ m ++ f) := by
    simp [List.append_assoc]
  have h2 : a :: (u ++ t ++ m ++ f) = a :: (u ++ (t ++ m ++ f)) := by
    simp [List.append_assoc]
  rw [h, h2]
  exact List.perm_middle

theorem perm_snoc_second {α : Type} (a : α) (u t m f : List α) :
    (u ++ (t ++ [a]) ++ m ++ f).Perm (a :: (u ++ t ++ m ++ f)) := by
  have h : u ++ (t ++ [a]) ++ m ++ f = (u ++ t) ++ a :: (m ++ f) := by
    simp [List.append_assoc]
  have h2 : a :: (u ++ t ++ m ++ f) = a :: ((u ++ t) ++ (m ++ f)) := by
    simp [List.append_assoc]
  rw [h, h2]
  exact List.perm_middle

theorem perm_snoc_third {α : Type} (a : α) (u t m f : List α) :
    (u ++ t ++ (m ++ [a]) ++ f).Perm (a :: (u ++ t ++ m ++ f)) := by
  have h : u ++ t ++ (m ++ [a]) ++ f = (u ++ t ++ m) ++ a :: f := by
    simp [List.append_assoc]
  have h2 : a :: (u ++ t ++ m ++ f) = a :: ((u ++ t ++ m) ++ f) := rfl
  rw [h, h2]
  exact List.perm_middle

theorem perm_snoc_fourth {α : Type} (a : α) (u t m f : List α) :
    (u ++ t ++ m ++ (f ++ [a])).Perm (a :: (u ++ t ++ m ++ f)) := by
  have h : u ++ t ++ m ++ (f ++ [a]) = (u ++ t ++ m ++ f) ++ [a] := by
    simp [List.append_assoc]
  rw [h]
  exact List.perm_append_singleton a _

theorem allIds_applyCreate_perm (s : MemStorage.MemState) (op : MemStorage.CreateOp) :
    (MemStorage.allIds (MemStorage.applyCreate s op).2).Perm
      (s.nextId :: MemStorage.allIds s) := by
  cases op with
  | user u now =>
      have h : MemStorage.allIds (MemStorage.applyCreate s (.user u now)).2
          = (s.users.map MemStorage.User.id ++ [s.nextId])
            ++ s.threatDetections.map MemStorage.ThreatDetection.id
            ++ s.mlModels.map MemStorage.MlModel.id
            ++ s.fileAnalyses.map MemStorage.FileAnalysis.id := by
        simp [MemStorage.allIds, MemStorage.applyCreate, MemStorage.createUser]
      rw [h]
      exact perm_snoc_first _ _ _ _ _
  | threat d now =>
      have h : MemStorage.allIds (MemStorage.applyCreate s (.threat d now)).2
          = s.users.map MemStorage.User.id
            ++ (s.threatDetections.map MemStorage.ThreatDetection.id ++ [s.nextId])
            ++ s.mlModels.map MemStorage.MlModel.id
            ++ s.fileAnalyses.map MemStorage.FileAnalysis.id := by
        simp [MemStorage.allIds, MemStorage.applyCreate,
          MemStorage.createThreatDetection]
      rw [h]
      exact perm_snoc_second _ _ _ _ _
  | model m now =>
      have h : MemStorage.allIds (MemStorage.applyCreate s (.model m now)).2
          = s.users.map MemStorage.User.id
            ++ s.threatDetections.map MemStorage.ThreatDetection.id
            ++ (s.mlModels.map MemStorage.MlModel.id ++ [s.nextId])
            ++ s.fileAnalyses.map MemStorage.FileAnalysis.id := by
        simp [MemStorage.allIds, MemStorage.applyCreate, MemStorage.createMlModel]
      rw [h]
      exact perm_snoc_third _ _ _ _ _
  | analysis a now =>
      have h : MemStorage.allIds (MemStorage.applyCreate s (.analysis a now)).2
          = s.users.map MemStorage.User.id
            ++ s.threatDetections.map MemStorage.ThreatDetection.id
            ++ s.mlModels.map MemStorage.MlModel.id
            ++ (s.fileAnalyses.map MemStorage.FileAnalysis.id ++ [s.nextId]) := by
        simp [MemStorage.allIds, MemStorage.applyCreate,
          MemStorage.createFileAnalysis]
      rw [h]
      exact perm_snoc_fourth _ _ _ _ _

/-- Every stored id is below the next counter value. -/
def IdBound (s : MemStorage.MemState) : Prop :=
  ∀ i ∈ MemStorage.allIds s, i < s.nextId

theorem inv_applyCreate (s : MemStorage.MemState) (op : MemStorage.CreateOp)
    (hb : IdBound s) (hn : (MemStorage.allIds s).Nodup) :
    IdBound (MemStorage.applyCreate s op).2 ∧
    (MemStorage.allIds (MemStorage.applyCreate s op).2).Nodup := by
  have hperm := allIds_applyCreate_perm s op
  have hnotmem : s.nextId ∉ MemStorage.allIds s :=
    fun hmem => lt_irrefl _ (hb _ hmem)
  constructor
  · intro i hi
    have hi2 : i ∈ s.nextId :: MemStorage.allIds s := hperm.mem_iff.mp hi
    rw [applyCreate_nextId]
    rcases List.mem_cons.mp hi2 with rfl | hi3
    · omega
    · have := hb i hi3
      omega
  · exact (hperm.nodup_iff).mpr (List.nodup_cons.mpr ⟨hnotmem, hn⟩)

theorem runCreates_inv (ops : List MemStorage.CreateOp) :
    ∀ s : MemStorage.MemState, IdBound s → (MemStorage.allIds s).Nodup →
      (MemStorage.allIds (MemStorage.runCreates s ops).2).Nodup := by
  induction ops with
  | nil => intro s _ hn; exact hn
  | cons op ops ih =>
      intro s hb hn
      have hstep : (MemStorage.runCreates s (op :: ops)).2
          = (MemStorage.runCreates (MemStorage.applyCreate s op).2 ops).2 := rfl
      rw [hstep]
      obtain ⟨hb2, hn2⟩ := inv_applyCreate s op hb hn
      exact ih _ hb2 hn2

/-- C9: starting from the fresh `MemStorage` (all collections empty,
`nextId = 1`), any sequence of creation calls across the four entity
collections is assigned exactly the ids `1, 2, 3, …` in creation order —
strictly increasing from the single shared counter — and afterwards no two
stored records, across all four collections, share an id. -/
theorem storage_ids_unique_increasing (ops : List MemStorage.CreateOp) :
    (MemStorage.runCreates MemStorage.initMemState ops).1
      = List.range' 1 ops.length ∧
    (MemStorage.allIds (MemStorage.runCreates MemStorage.initMemState ops).2).Nodup := by
  constructor
  · exact runCreates_ids ops MemStorage.initMemState
  · refine runCreates_inv ops MemStorage.initMemState ?_ ?_
    · intro i hi
      simp [MemStorage.allIds, MemStorage.initMemState] at hi
    · simp [MemStorage.allIds, MemStorage.initMemState]

/-! ## Helper lemmas about the bulk coordinator (`ThreatsUI`) -/

theorem filter_length_partition {α : Type} (p : α → Bool) (l : List α) :
    (l.filter p).length + (l.filter (fun a => !(p a))).length = l.length := by
  induction l with
  | nil => rfl
  | cons a l ih =>
      by_cases h : p a = true
      · simp [List.filter_cons, h]
        omega
      · have h2 : p a = false := by simpa using h
        simp [List.filter_cons, h2]
        omega

theorem tally_foldl_spec (fetch : Nat → ThreatsUI.FetchOutcome) (l : List Nat) :
    ∀ (sc fc : Nat) (q : List Nat),
      (l.map (fun threatId => (threatId, fetch threatId))).foldl
          ThreatsUI.tallyStep (sc, fc, q)
        = (sc + (l.filter (fun i => ThreatsUI.isSuccess (fetch i))).length,
           fc + (l.filter (fun i => !(ThreatsUI.isSuccess (fetch i)))).length,
           q ++ l.filter (fun i => ThreatsUI.isSuccess (fetch i))) := by
  induction l with
  | nil => intro sc fc q; simp
  | cons i l ih =>
      intro sc fc q
      by_cases h : ThreatsUI.isSuccess (fetch i) = true
      · simp only [List.map_cons, List.foldl_cons, ThreatsUI.tallyStep, h,
          if_true, List.filter_cons]
        rw [ih]
        simp only [h, if_true, List.length_cons, Bool.not_true, if_false]
        refine congrArg₂ Prod.mk (by omega) (congrArg₂ Prod.mk rfl ?_)
        simp [List.append_assoc]
      · have h2 : ThreatsUI.isSuccess (fetch i) = false := by simpa using h
        simp only [List.map_cons, List.foldl_cons, ThreatsUI.tallyStep, h2,
          Bool.false_eq_true, if_false, List.filter_cons]
        rw [ih]
        simp only [h2, Bool.not_false, if_true, if_false, Bool.false_eq_true,
          List.length_cons]
        refine congrArg₂ Prod.mk rfl (congrArg₂ Prod.mk (by omega) rfl)

theorem bulkQuarantine_cons_eq (j : Nat) (rest : List Nat)
    (fetch : Nat → ThreatsUI.FetchOutcome) :
    ThreatsUI.bulkQuarantine (j :: rest) true fetch
      = .ok { successCount :=
                ((j :: rest).filter (fun i => ThreatsUI.isSuccess (fetch i))).length,
              failCount :=
                ((j :: rest).filter (fun i => !(ThreatsUI.isSuccess (fetch i)))).length,
              quarantinedRows :=
                (j :: rest).filter (fun i => ThreatsUI.isSuccess (fetch i)) } := by
  have htally := tally_foldl_spec fetch (j :: rest) 0 0 []
  have h1 : ThreatsUI.bulkQuarantine (j :: rest) true fetch
      = (fun t : Nat × Nat × List Nat =>
          Except.ok ({ successCount := t.1, failCount := t.2.1,
                       quarantinedRows := t.2.2 } : ThreatsUI.BulkOutcome))
        (((j :: rest).map (fun threatId => (threatId, fetch threatId))).foldl
          ThreatsUI.tallyStep (0, 0, [])) := rfl
  rw [h1, htally]
  simp

/-! ## C4 — bulk quarantine is all-settled, independent, no rollback -/

/-- A per-id outcome map for the C4 witness: threat 1 succeeds, every other
request is rejected. -/
def mixedFetch : Nat → ThreatsUI.FetchOutcome :=
  fun i => if i = 1 then .fulfilled true else .rejected

/-- Per-id outcome maps whose single failure has different causes, for the C4
counterexample. -/
def fetchNetworkFail : Nat → ThreatsUI.FetchOutcome := fun _ => .rejected

def fetchHttpFail : Nat → ThreatsUI.FetchOutcome := fun _ => .fulfilled false

/-- C4 counterexample: two bulk runs whose single item fails for different
reasons (a rejected promise vs a non-ok HTTP response) produce identical
results, so the result of `bulkQuarantine` carries no per-failure reason —
refuting the claim that the result partitions the ids "with a per-failure
reason".  Only anonymous success/failure counts survive. -/
theorem bulk_result_carries_no_reason :
    ThreatsUI.bulkQuarantine [1] true fetchNetworkFail
      = ThreatsUI.bulkQuarantine [1] true fetchHttpFail ∧
    fetchNetworkFail 1 ≠ fetchHttpFail 1 := by
  exact ⟨rfl, by decide⟩

/-- C4 (amended): a non-empty confirmed bulk quarantine always returns a
result (never a call-level error); every requested id is counted exactly once
as a success or a failure (the two counts partition the request); an id's row
is quarantined exactly when its own request succeeded, independently of every
other id's outcome (all-settled, no rollback of partial success) — but the
result carries only the two counts and the succeeded rows, no per-failure
reason. -/
theorem bulk_quarantine_all_settled_counts (selected : List Nat)
    (fetch : Nat → ThreatsUI.FetchOutcome) (h : selected ≠ []) :
    ∃ out, ThreatsUI.bulkQuarantine selected true fetch = .ok out ∧
      out.successCount = (selected.filter (fun i => ThreatsUI.isSuccess (fetch i))).length ∧
      out.failCount = (selected.filter (fun i => !(ThreatsUI.isSuccess (fetch i)))).length ∧
      out.successCount + out.failCount = selected.length ∧
      out.quarantinedRows = selected.filter (fun i => ThreatsUI.isSuccess (fetch i)) ∧
      (∀ i ∈ selected,
        (i ∈ out.quarantinedRows ↔ ThreatsUI.isSuccess (fetch i) = true)) := by
  rcases selected with _ | ⟨j, rest⟩
  · exact absurd rfl h
  · refine ⟨_, bulkQuarantine_cons_eq j rest fetch, rfl, rfl,
      filter_length_partition _ _, rfl, ?_⟩
    intro i hi
    constructor
    · intro hmem
      exact (List.mem_filter.mp hmem).2
    · intro hsucc
      exact List.mem_filter.mpr ⟨hi, hsucc⟩

/-- C4 witness: the amended statement evaluated on the selection `[1, 2]`
where threat 1 succeeds and threat 2's request is rejected. -/
theorem bulk_quarantine_all_settled_counts_witness :
    ∃ out, ThreatsUI.bulkQuarantine [1, 2] true mixedFetch = .ok out ∧
      out.successCount = ([1, 2].filter (fun i => ThreatsUI.isSuccess (mixedFetch i))).length ∧
      out.failCount = ([1, 2].filter (fun i => !(ThreatsUI.isSuccess (mixedFetch i)))).length ∧
      out.successCount + out.failCount = ([1, 2] : List Nat).length ∧
      out.quarantinedRows = [1, 2].filter (fun i => ThreatsUI.isSuccess (mixedFetch i)) ∧
      (∀ i ∈ ([1, 2] : List Nat),
        (i ∈ out.quarantinedRows ↔ ThreatsUI.isSuccess (mixedFetch i) = true)) :=
  bulk_quarantine_all_settled_counts [1, 2] mixedFetch (by decide)

/-! ## C6 — empty bulk selection aborts before touching anything -/

/-- C6: a bulk quarantine over an empty id set reports the empty selection
and returns before any per-threat request is issued: the outcome is the
empty-selection abort for every per-id outcome map, and is identical for any
two such maps — no threat's state is read or modified. -/
theorem bulk_empty_selection_aborts_untouched (confirmed : Bool)
    (f g : Nat → ThreatsUI.FetchOutcome) :
    ThreatsUI.bulkQuarantine [] confirmed f
      = .error ThreatsUI.BulkAbort.emptySelection ∧
    ThreatsUI.bulkQuarantine [] confirmed f
      = ThreatsUI.bulkQuarantine [] confirmed g := by
  exact ⟨rfl, rfl⟩

end CryptoDetect
